import Mathlib

/-!
# csi-powerflex `main.go`: mode selection and leadership-gated execution

A shallow embedding of `main` (src/main.go) and of the Go library calls it
makes, followed by theorems about which collaborators `main` calls, in which
order, what it writes to the output streams and how the process ends.

Conventions of the embedding:

* Go strings are modelled as Lean strings (sequences of characters); offsets
  and lengths inside the string helpers count characters.  For text that is
  valid UTF-8 and for the one-byte ASCII patterns `main` uses, this agrees
  with Go's byte-wise search.
* `main` is a program in the monad `M`: it threads the process state and may
  return, terminate the process (`os.Exit`) or block for ever.
* The packages `gocsi`, `service`, `provider` and `k8sutils` are not part of
  the embedded source.  Their constants are the parameter `Consts`; the
  behaviour of their functions is the parameter `World`.
-/

namespace CsiPowerflex

/-! ## Go `strings` helpers -/

/-- Go `strings.HasPrefix`, on character lists: `p` is an initial segment of `s`. -/
def startsWith : List Char → List Char → Bool
  | _, [] => true
  | [], _ :: _ => false
  | a :: s, b :: p => a == b && startsWith s p

/-- Offset of the first occurrence of `sub` in `s`, counted from `i`. -/
def indexFrom (sub : List Char) : List Char → Nat → Option Nat
  | [], i => if sub.isEmpty then some i else none
  | a :: s, i => if startsWith (a :: s) sub then some i else indexFrom sub s (i + 1)

/-- Go `strings.Index`: offset of the first occurrence of `sub` in `s`, or `-1`. -/
def stringsIndex (s sub : List Char) : Int :=
  match indexFrom sub s 0 with
  | some i => (i : Int)
  | none => -1

/-- The general loop of Go `strings.Count`: repeatedly find `sub` and skip past it.
The first argument bounds the number of iterations. -/
def countLoop (sub : List Char) : Nat → List Char → Nat → Nat
  | 0, _, n => n
  | fuel + 1, s, n =>
    let i := stringsIndex s sub
    if i = -1 then n
    else countLoop sub fuel (s.drop (i.toNat + sub.length)) (n + 1)

/-- Go `strings.Count`: number of non-overlapping occurrences of `sub` in `s`;
for an empty `sub` it is the number of characters plus one, for a one-character
`sub` the number of occurrences of that character. -/
def stringsCount (s sub : List Char) : Nat :=
  match sub with
  | [] => s.length + 1
  | [ch] => s.count ch
  | _ => countLoop sub (s.length + 1) s 0

/-- The replacement loop of Go `strings.Replace`.  `k` is the number of
iterations left, `i` the iteration index, `start` the offset already consumed
and `b` the builder.  Slice bounds are always in range because the number of
iterations never exceeds `stringsCount s old`. -/
def replaceLoop (s old new : List Char) : Nat → Nat → Nat → List Char → List Char
  | 0, _, start, b => b ++ s.drop start
  | k + 1, i, start, b =>
    let j : Nat :=
      if old.length = 0 then
        if i > 0 then start + (if start < s.length then 1 else 0) else start
      else start + (stringsIndex (s.drop start) old).toNat
    replaceLoop s old new k (i + 1) (j + old.length)
      (b ++ (s.drop start).take (j - start) ++ new)

/-- Go `strings.Replace(s, old, new, n)`: the first `n` non-overlapping
occurrences of `old` replaced by `new`; all of them when `n < 0`. -/
def stringsReplace (s old new : String) (n : Int) : String :=
  if old = new ∨ n = 0 then s
  else
    let m := stringsCount s.data old.data
    if m = 0 then s
    else
      let n : Nat := if n < 0 ∨ (m : Int) < n then m else n.toNat
      String.mk (replaceLoop s.data old.data new.data n 0 0 [])

/-- The lock identity computed in the leader-election branch of `main`:
`strings.Replace(service.Name, ".", "-", -1)` followed by
`fmt.Sprintf("driver-%s", driverName)`. -/
def lockName (serviceName : String) : String :=
  let driverName := stringsReplace serviceName "." "-" (-1)
  "driver-" ++ driverName

/-- The spec's wording of one character of the lock identity: a separator
`.` becomes `-`, any other character is kept. -/
def dotToDash (ch : Char) : Char := if ch = '.' then '-' else ch

/-- The spec's wording of the lock identity: replace every `.` with `-`,
prepend `driver-`. -/
def specLockName (serviceName : String) : String :=
  "driver-" ++ String.mk (serviceName.data.map dotToDash)

/-! ## Process model -/

/-- The process environment: an association list from names to values, the
first binding of a name being the current one. -/
abbrev Env := List (String × String)

/-- Go `os.Getenv`: the value bound to `key`, or the empty string. -/
def getenv (env : Env) (key : String) : String :=
  match env.lookup key with
  | some v => v
  | none => ""

/-- Go `os.Setenv` succeeds unless the key is empty or holds `=` or NUL, or
the value holds NUL. -/
def setenvAccepts (key value : String) : Bool :=
  !key.data.isEmpty
    && !key.data.any (fun ch => ch == '=' || ch == Char.ofNat 0)
    && !value.data.any (fun ch => ch == Char.ofNat 0)

/-- Go `os.Setenv` with its error ignored (`_ = os.Setenv(k, v)`): a rejected
call leaves the environment as it was. -/
def setenv (env : Env) (key value : String) : Env :=
  if setenvAccepts key value then (key, value) :: env else env

/-- Constants of the packages `gocsi` and `service` that `main` refers to. -/
structure Consts where
  /-- Constant `gocsi.EnvVarDebug`. -/
  EnvVarDebug : String
  /-- Constant `gocsi.EnvVarReqLogging`. -/
  EnvVarReqLogging : String
  /-- Constant `gocsi.EnvVarRepLogging`. -/
  EnvVarRepLogging : String
  /-- Constant `gocsi.EnvVarMode`, the name of the mode-selector variable. -/
  EnvVarMode : String
  /-- Constant `service.Name`, the canonical service name. -/
  Name : String
  deriving DecidableEq, Repr

/-- The name of the mode-selector variable is none of the three names `main`
assigns with `os.Setenv` before it reads the variable. -/
def Consts.ModeKeyDistinct (c : Consts) : Prop :=
  c.EnvVarMode ≠ c.EnvVarDebug ∧ c.EnvVarMode ≠ c.EnvVarReqLogging
    ∧ c.EnvVarMode ≠ c.EnvVarRepLogging

instance (c : Consts) : Decidable c.ModeKeyDistinct := by
  unfold Consts.ModeKeyDistinct; infer_instance

/-- The values the constants have in the released driver (the service name is
the one quoted in the comments of `main`). -/
def releasedConsts : Consts where
  EnvVarDebug := "X_CSI_DEBUG"
  EnvVarReqLogging := "X_CSI_REQ_LOGGING"
  EnvVarRepLogging := "X_CSI_REP_LOGGING"
  EnvVarMode := "X_CSI_MODE"
  Name := "csi-vxflexos.dellemc.com"

/-- The command-line flags `main` declares, with the values `flag.Parse` left
in them. -/
structure Flags where
  /-- Flag `--array-config` (default empty). -/
  arrayConfigfile : String := ""
  /-- Flag `--driver-config-params` (default empty). -/
  driverConfigParamsfile : String := ""
  /-- Flag `--leader-election` (default false). -/
  enableLeaderElection : Bool := false
  /-- Flag `--leader-election-namespace` (default empty). -/
  leaderElectionNamespace : String := ""
  /-- Flag `--kubeconfig` (default empty). -/
  kubeconfig : String := ""
  deriving DecidableEq, Repr

/-- A Go `context.Context` handed to the workload: `context.Background()`,
which is never cancelled, or a context created by the coordinator for one
leadership term. -/
inductive Ctx where
  | background
  | leaderTerm (id : Nat)
  deriving DecidableEq, Repr

/-- A handle for a cluster client (`kubernetes.Interface`). -/
abbrev Clientset := Nat

/-- How a call ends: it returns a value, it terminates the process with an
exit status (`os.Exit`), or it never returns. -/
inductive Step (α : Type) where
  | ret (a : α)
  | halt (code : Int)
  | block
  deriving DecidableEq, Repr

/-- What `main` does that is visible from outside: writes to the two output
streams, the read of an environment variable, and calls to collaborators. -/
inductive Event where
  /-- Output of `fmt.Fprintf(os.Stderr, ...)`. -/
  | stderr (text : String)
  /-- Output of `fmt.Fprintf(os.Stdout, ...)`. -/
  | stdout (text : String)
  /-- Call of `os.Getenv(key)`. -/
  | getenv (key : String)
  /-- Call of `service.NewPreInitService()`. -/
  | newPreInitService
  /-- Call of `svc.PreInit()`. -/
  | preInit
  /-- Call of `provider.New()`. -/
  | providerNew
  /-- Call of `gocsi.Run(ctx, name, desc, usage, sp)`. -/
  | gocsiRun (ctx : Ctx) (name desc usageText : String)
  /-- Call of `k8sutils.CreateKubeClientSet()`. -/
  | createKubeClientSet
  /-- Call of `k8sutils.LeaderElection(&k8sutils.Clientset, lockName, namespace, run)`;
  `clientset` is the value of `k8sutils.Clientset` at the call. -/
  | leaderElection (clientset : Option Clientset) (lockName ns : String)
  deriving DecidableEq, Repr

/-- The event is a read of the environment. -/
def Event.isGetenv : Event → Bool
  | .getenv _ => true
  | _ => false

/-- The event is a write to the error stream. -/
def Event.isStderr : Event → Bool
  | .stderr _ => true
  | _ => false

/-- The event is a write to standard output. -/
def Event.isStdout : Event → Bool
  | .stdout _ => true
  | _ => false

/-- The event belongs to pre-init: construction of the pre-init service or
the call of its `PreInit` method. -/
def Event.isPreInit : Event → Bool
  | .newPreInitService => true
  | .preInit => true
  | _ => false

/-- The event is an invocation of the workload entrypoint `gocsi.Run`. -/
def Event.isWorkload : Event → Bool
  | .gocsiRun _ _ _ _ => true
  | _ => false

/-- The event is a call of the cluster client factory. -/
def Event.isClientFactory : Event → Bool
  | .createKubeClientSet => true
  | _ => false

/-- The event is a call of the leader-election coordinator. -/
def Event.isCoordinator : Event → Bool
  | .leaderElection _ _ _ => true
  | _ => false

/-- The package-level variables of `service` that `main` assigns. -/
structure ServiceGlobals where
  /-- Variable `service.Log` has been assigned the new logger. -/
  Log : Bool := false
  /-- Variable `service.ArrayConfigFile`. -/
  ArrayConfigFile : String := ""
  /-- Variable `service.DriverConfigParamsFile`. -/
  DriverConfigParamsFile : String := ""
  /-- Variable `service.KubeConfig`. -/
  KubeConfig : String := ""
  /-- Variable `service.K8sClientset` (none is the nil interface). -/
  K8sClientset : Option Clientset := none
  deriving DecidableEq, Repr

/-- The state of the process as far as `main` reads or writes it. -/
structure State where
  /-- The process environment. -/
  env : Env
  /-- The package-level variables of `service`. -/
  svc : ServiceGlobals := {}
  /-- The package-level variable `k8sutils.Clientset`. -/
  clientset : Option Clientset := none
  /-- The events so far, oldest first. -/
  trace : List Event := []
  deriving DecidableEq, Repr

/-- The surroundings of one run of `main`: the environment at startup and the
behaviour of every collaborator `main` calls. -/
structure World where
  /-- The process environment at startup. -/
  env : Env
  /-- How `flag.Parse()` ends: it returns with the flag values, or terminates
  the process (a malformed command line, `-h`). -/
  flagParse : Step Flags
  /-- How `svc.PreInit()` ends; the value is the error (none is nil), given
  by its message. -/
  preInit : Step (Option String)
  /-- How the `n`-th invocation (from 0) of `gocsi.Run` ends, given its context. -/
  gocsiRun : Nat → Ctx → Step Unit
  /-- How `k8sutils.CreateKubeClientSet()` ends: the value it leaves in
  `k8sutils.Clientset` and the error it returns (none is nil). -/
  createKubeClientSet : Step (Option Clientset × Option String)
  /-- The contexts with which the coordinator invokes the callback it is
  given, in order, one invocation per leadership term. -/
  leaderCallbacks : List Ctx
  /-- How the call of the coordinator ends once those invocations are over. -/
  leaderElection : Step Unit

/-- Programs over the process state that may return, exit or block. -/
def M (α : Type) : Type := State → State × Step α

/-- Sequencing: the continuation runs only when the first part returns. -/
def M.bind {α β : Type} (m : M α) (f : α → M β) : M β := fun s =>
  match m s with
  | (s1, .ret a) => f a s1
  | (s1, .halt code) => (s1, .halt code)
  | (s1, .block) => (s1, .block)

instance : Monad M where
  pure a := fun s => (s, .ret a)
  bind := M.bind

/-- Record an event. -/
def emit (e : Event) : M Unit := fun s =>
  ({ s with trace := s.trace ++ [e] }, .ret ())

/-- Call a collaborator: record the call and end the way the world says. -/
def call {α : Type} (e : Event) (r : Step α) : M α := fun s =>
  ({ s with trace := s.trace ++ [e] }, r)

/-- Go `os.Exit(code)`. -/
def osExit (code : Int) : M Unit := fun s => (s, .halt code)

/-- Go `_ = os.Setenv(key, value)`. -/
def osSetenv (key value : String) : M Unit := fun s =>
  ({ s with env := setenv s.env key value }, .ret ())

/-- Go `os.Getenv(key)`. -/
def osGetenv (key : String) : M String := fun s =>
  ({ s with trace := s.trace ++ [.getenv key] }, .ret (getenv s.env key))

/-- Assignment to package-level variables of `service`. -/
def modifySvc (f : ServiceGlobals → ServiceGlobals) : M Unit := fun s =>
  ({ s with svc := f s.svc }, .ret ())

/-- Read of the package-level variable `k8sutils.Clientset`. -/
def readClientset : M (Option Clientset) := fun s => (s, .ret s.clientset)

/-- Number of invocations of the workload entrypoint recorded in a trace. -/
def workloadRuns (t : List Event) : Nat := t.countP Event.isWorkload

/-- Go `flag.Parse()` together with the dereference of the flag pointers. -/
def flagParse (w : World) : M Flags := fun s => (s, w.flagParse)

/-- Call of `gocsi.Run(ctx, name, desc, usage, sp)`. -/
def gocsiRun (w : World) (ctx : Ctx) (name desc usageText : String) : M Unit := fun s =>
  ({ s with trace := s.trace ++ [.gocsiRun ctx name desc usageText] },
    w.gocsiRun (workloadRuns s.trace) ctx)

/-- Call of `k8sutils.CreateKubeClientSet()`: it assigns `k8sutils.Clientset`
and returns an error. -/
def createKubeClientSet (w : World) : M (Option String) := fun s =>
  match w.createKubeClientSet with
  | .ret (cs, err) =>
    ({ s with clientset := cs, trace := s.trace ++ [.createKubeClientSet] }, .ret err)
  | .halt code => ({ s with trace := s.trace ++ [.createKubeClientSet] }, .halt code)
  | .block => ({ s with trace := s.trace ++ [.createKubeClientSet] }, .block)

/-- The coordinator invokes the callback once per context, one after the other. -/
def invokeAll (runFunc : Ctx → M Unit) : List Ctx → M Unit
  | [] => pure ()
  | ctx :: rest => do
    runFunc ctx
    invokeAll runFunc rest

/-- Modelled from the spec: `k8sutils.LeaderElection`, whose package is not in
the embedded source.  The coordinator takes a lock identity, a namespace and a
callback; it invokes the callback under leadership (here: once for each
leadership term the world grants) and then returns, blocks or terminates the
process. -/
def LeaderElection (w : World) (clientset : Option Clientset) (lockName ns : String)
    (runFunc : Ctx → M Unit) : M Unit := do
  emit (.leaderElection clientset lockName ns)
  invokeAll runFunc w.leaderCallbacks
  fun s => (s, w.leaderElection)

/-- The constant `usage` of main.go. -/
def usage : String :=
  "    X_CSI_VXFLEXOS_SDCGUID\n" ++
  "        Specifies the GUID of the SDC. This is only used by the Node Service,\n" ++
  "        and removes a need for calling an external binary to retrieve the GUID.\n" ++
  "        If not set, the external binary will be invoked.\n" ++
  "\n" ++
  "        The default value is empty.\n" ++
  "\n" ++
  "    X_CSI_VXFLEXOS_THICKPROVISIONING\n" ++
  "        Specifies whether thick provisiong should be used when creating volumes.\n" ++
  "\n" ++
  "        The default value is false.\n" ++
  "\n" ++
  "    X_CSI_VXFLEXOS_ENABLESNAPSHOTCGDELETE\n" ++
  "        When a snapshot is deleted, if it is a member of a Consistency Group, enable automatic deletion\n" ++
  "        of all snapshots in the consistency group.\n" ++
  "\n" ++
  "        The default value is false.\n" ++
  "\n" ++
  "    X_CSI_VXFLEXOS_ENABLELISTVOLUMESNAPSHOTS\n" ++
  "        When listing volumes, if this option is is enabled, then volumes and snapshots will be returned.\n" ++
  "        Otherwise only volumes are returned.\n" ++
  "\n" ++
  "        The default value is false.\n"

/-- The description string `main` passes to `gocsi.Run`. -/
def description : String := "A PowerFlex Container Storage Interface (CSI) Plugin"

/-- The closure `run` of `main`: it calls `gocsi.Run` with the service name,
the description, the usage text and a new provider. -/
def run (c : Consts) (w : World) (ctx : Ctx) : M Unit := do
  emit .providerNew
  gocsiRun w ctx c.Name description usage

/-- The function `main` of main.go. -/
def main (c : Consts) (w : World) : M Unit := do
  modifySvc (fun g => { g with Log := true })
  osSetenv c.EnvVarDebug "false"
  osSetenv c.EnvVarReqLogging "true"
  osSetenv c.EnvVarRepLogging "true"
  let f ← flagParse w
  if f.arrayConfigfile = "" then
    emit (.stderr "array-config argument is mandatory")
    osExit 1
  if f.driverConfigParamsfile = "" then
    emit (.stderr "driver-config-params argument is mandatory")
    osExit 1
  modifySvc (fun g => { g with
    ArrayConfigFile := f.arrayConfigfile
    DriverConfigParamsFile := f.driverConfigParamsfile
    KubeConfig := f.kubeconfig })
  if (← osGetenv c.EnvVarMode) = "mdm-info" then
    emit (.stdout "PowerFlex Container Storage Interface (CSI) Plugin starting in pre-init mode.")
    emit .newPreInitService
    let err ← call .preInit w.preInit
    match err with
    | some e =>
      emit (.stderr ("failed to complete pre-init: " ++ e))
      osExit 1
    | none => pure ()
    osExit 0
  if !f.enableLeaderElection then
    run c w .background
  else
    let driverName := stringsReplace c.Name "." "-" (-1)
    let lockName := "driver-" ++ driverName
    let err ← createKubeClientSet w
    match err with
    | some e =>
      emit (.stderr ("failed to create clientset for leader election: " ++ e))
      osExit 1
    | none => pure ()
    let cs ← readClientset
    modifySvc (fun g => { g with K8sClientset := cs })
    LeaderElection w cs lockName f.leaderElectionNamespace (run c w)

/-- The state in which `main` starts. -/
def State.init (w : World) : State := { env := w.env }

/-- One run of the process: `main` from the initial state. -/
def exec (c : Consts) (w : World) : State × Step Unit := main c w (State.init w)

/-- The exit status of the process: the argument of `os.Exit`, or 0 when
`main` returns; none when the process never ends. -/
def exitStatus : Step Unit → Option Int
  | .ret _ => some 0
  | .halt code => some code
  | .block => none

/-! ## Vocabulary of the statements -/

/-- The three run modes of the spec. -/
inductive RunMode where
  | PreInit
  | DirectRun
  | LeaderElectedRun
  deriving DecidableEq, Repr

/-- The spec's wording of mode selection: pre-init when the mode-selector
value equals the sentinel, otherwise direct or leader-elected depending on the
leader-election flag. -/
def specMode (modeValue : String) (leaderElectionEnabled : Bool) : RunMode :=
  if modeValue = "mdm-info" then .PreInit
  else if leaderElectionEnabled then .LeaderElectedRun
  else .DirectRun

/-- The mode a collaborator call reveals: the pre-init service is built only
on the pre-init path, the cluster client only on the leader-elected path, and
a provider is built by `main` itself only on the direct path. -/
def Event.modeOf : Event → Option RunMode
  | .newPreInitService => some .PreInit
  | .providerNew => some .DirectRun
  | .createKubeClientSet => some .LeaderElectedRun
  | _ => none

/-- The mode a run took, read off its trace: the mode revealed by the first
collaborator `main` called. -/
def observedMode (t : List Event) : Option RunMode := t.findSome? Event.modeOf

/-- The startup input is valid: `flag.Parse` returned the flag values `f` and
both required flags are non-empty. -/
def ValidConfig (w : World) (f : Flags) : Prop :=
  w.flagParse = .ret f ∧ f.arrayConfigfile ≠ "" ∧ f.driverConfigParamsfile ≠ ""

instance (w : World) (f : Flags) : Decidable (ValidConfig w f) := by
  unfold ValidConfig; infer_instance

/-- The environment after the three `os.Setenv` calls at the top of `main`. -/
def envAtRead (c : Consts) (env : Env) : Env :=
  setenv (setenv (setenv env c.EnvVarDebug "false") c.EnvVarReqLogging "true")
    c.EnvVarRepLogging "true"

/-- The state right after a valid run has read the mode-selector variable. -/
def stateAfterRead (c : Consts) (w : World) (f : Flags) : State where
  env := envAtRead c w.env
  svc := {
    Log := true
    ArrayConfigFile := f.arrayConfigfile
    DriverConfigParamsFile := f.driverConfigParamsfile
    KubeConfig := f.kubeconfig }
  clientset := none
  trace := [.getenv c.EnvVarMode]

/-- The state in which a leader-elected run calls the coordinator, the cluster
client factory having left `cs` in `k8sutils.Clientset`. -/
def stateAtCoordinatorCall (c : Consts) (w : World) (f : Flags) (cs : Option Clientset) :
    State where
  env := envAtRead c w.env
  svc := {
    Log := true
    ArrayConfigFile := f.arrayConfigfile
    DriverConfigParamsFile := f.driverConfigParamsfile
    KubeConfig := f.kubeconfig
    K8sClientset := cs }
  clientset := cs
  trace := [.getenv c.EnvVarMode, .createKubeClientSet]

/-- The events of one invocation of the closure `run`. -/
def runEvents (c : Consts) (ctx : Ctx) : List Event :=
  [.providerNew, .gocsiRun ctx c.Name description usage]

/-- The events of a series of invocations of the closure `run`. -/
def callbackEvents (c : Consts) : List Ctx → List Event
  | [] => []
  | ctx :: rest => runEvents c ctx ++ callbackEvents c rest

/-- The callback invocations the coordinator gets to make out of the ones it
is granted: one invocation after the other, up to and including the first
that does not return.  `n` is the number of workload runs before. -/
def performed (w : World) : Nat → List Ctx → List Ctx
  | _, [] => []
  | n, ctx :: rest =>
    match w.gocsiRun n ctx with
    | .ret _ => ctx :: performed w (n + 1) rest
    | .halt _ => [ctx]
    | .block => [ctx]

/-- How a series of callback invocations ends: the way the first invocation
that does not return ends, or with a return when all of them return. -/
def callbacksOutcome (w : World) : Nat → List Ctx → Step Unit
  | _, [] => .ret ()
  | n, ctx :: rest =>
    match w.gocsiRun n ctx with
    | .ret _ => callbacksOutcome w (n + 1) rest
    | .halt code => .halt code
    | .block => .block

/-- How the call of the coordinator ends when it is given the closure `run`:
the way its callback invocations end if one of them does not return, else the
way the world says. -/
def coordinatorOutcome (w : World) : Step Unit :=
  match callbacksOutcome w 0 w.leaderCallbacks with
  | .ret _ => w.leaderElection
  | .halt code => .halt code
  | .block => .block

/-- The message `main` prints on standard output when it enters pre-init mode. -/
def preInitBanner : String :=
  "PowerFlex Container Storage Interface (CSI) Plugin starting in pre-init mode."

/-! ## Sample runs -/

/-- Flag values of a valid startup with leader election off. -/
def sampleFlags : Flags where
  arrayConfigfile := "/vxflexos-config/config"
  driverConfigParamsfile := "/vxflexos-config-params/driver-config-params.yaml"

/-- A startup with a valid configuration, leader election off and an empty
environment, in which every collaborator returns without error. -/
def sampleWorld : World where
  env := []
  flagParse := .ret sampleFlags
  preInit := .ret none
  gocsiRun := fun _ _ => .ret ()
  createKubeClientSet := .ret (some 1, none)
  leaderCallbacks := [.leaderTerm 0]
  leaderElection := .ret ()

/-- The flag values of `sampleFlags` with leader election switched on. -/
def leaderFlags : Flags :=
  { sampleFlags with enableLeaderElection := true, leaderElectionNamespace := "vxflexos" }

/-- A valid startup with leader election on: the coordinator grants two
leadership terms; the workload returns from the first and blocks in the second. -/
def leaderWorld : World :=
  { sampleWorld with
    flagParse := .ret leaderFlags
    gocsiRun := fun n _ => if n = 0 then .ret () else .block
    leaderCallbacks := [.leaderTerm 0, .leaderTerm 1] }

/-- A valid startup with leader election on in which the coordinator returns
at once, without having invoked the callback. -/
def coordinatorReturnsWorld : World :=
  { sampleWorld with flagParse := .ret leaderFlags, leaderCallbacks := [] }

/-- A valid startup with leader election on in which the coordinator returns
after one leadership term. -/
def oneTermWorld : World := { sampleWorld with flagParse := .ret leaderFlags }

/-- A valid startup of an init container: the mode selector holds the sentinel. -/
def preInitWorld : World := { sampleWorld with env := [("X_CSI_MODE", "mdm-info")] }

/-- A valid startup of an init container with leader election on whose
pre-init routine never returns. -/
def preInitStuckWorld : World :=
  { sampleWorld with
    env := [("X_CSI_MODE", "mdm-info")]
    flagParse := .ret leaderFlags
    preInit := .block }

/-- Flag values without `--array-config`. -/
def noArrayConfigFlags : Flags where
  driverConfigParamsfile := "/params.yaml"
  enableLeaderElection := true

/-- A startup without `--array-config` whose mode selector holds the sentinel. -/
def noArrayConfigWorld : World :=
  { sampleWorld with
    env := [("X_CSI_MODE", "mdm-info")]
    flagParse := .ret noArrayConfigFlags }

/-- A valid startup with leader election on in which the cluster client
cannot be built. -/
def clientFailureWorld : World :=
  { sampleWorld with
    flagParse := .ret leaderFlags
    createKubeClientSet := .ret (none, some "no kubeconfig") }

/-- Flag values of a second valid startup with leader election off: every
other setting differs from `sampleFlags`. -/
def otherFlags : Flags where
  arrayConfigfile := "/other/config"
  driverConfigParamsfile := "/other/params.yaml"
  enableLeaderElection := false
  leaderElectionNamespace := "other-namespace"
  kubeconfig := "/home/user/.kube/config"

/-- The world of that second startup: other environment variables, other
collaborator behaviour. -/
def otherWorld : World where
  env := [("HOME", "/root"), ("X_CSI_DEBUG", "true")]
  flagParse := .ret otherFlags
  preInit := .block
  gocsiRun := fun _ _ => .block
  createKubeClientSet := .ret (none, some "refused")
  leaderCallbacks := []
  leaderElection := .block

/-! ## The lock identity -/

theorem map_dotToDash_of_not_mem : ∀ (t : List Char), '.' ∉ t → t.map dotToDash = t
  | [], _ => rfl
  | a :: t, h => by
    have ha : a ≠ '.' := fun e => h (e ▸ List.mem_cons_self _ _)
    have ht : '.' ∉ t := fun m => h (List.mem_cons_of_mem _ m)
    simp [dotToDash, ha, map_dotToDash_of_not_mem t ht]

theorem exists_first_dot : ∀ (t : List Char), '.' ∈ t →
    ∃ pre post, t = pre ++ '.' :: post ∧ '.' ∉ pre
  | [], h => by simp at h
  | a :: t, h => by
    by_cases ha : a = '.'
    · exact ⟨[], t, by simp [ha], by simp⟩
    · have ht : '.' ∈ t := by
        rcases List.mem_cons.mp h with e | m
        · exact absurd e.symm ha
        · exact m
      obtain ⟨pre, post, e, hp⟩ := exists_first_dot t ht
      refine ⟨a :: pre, post, by simp [e], ?_⟩
      intro m
      rcases List.mem_cons.mp m with e2 | m2
      · exact ha e2.symm
      · exact hp m2

theorem indexFrom_first_dot : ∀ (pre post : List Char) (i : Nat), '.' ∉ pre →
    indexFrom ['.'] (pre ++ '.' :: post) i = some (i + pre.length)
  | [], post, i, _ => by simp [indexFrom, startsWith]
  | a :: pre, post, i, h => by
    have ha : a ≠ '.' := fun e => h (e ▸ List.mem_cons_self _ _)
    have ht : '.' ∉ pre := fun m => h (List.mem_cons_of_mem _ m)
    simp [indexFrom, startsWith, ha, indexFrom_first_dot pre post (i + 1) ht]
    omega

theorem stringsIndex_first_dot (pre post : List Char) (h : '.' ∉ pre) :
    stringsIndex (pre ++ '.' :: post) ['.'] = (pre.length : Int) := by
  simp [stringsIndex, indexFrom_first_dot pre post 0 h]

theorem replaceLoop_dot (s : List Char) : ∀ (k i start : Nat) (b : List Char),
    (s.drop start).count '.' = k →
    replaceLoop s ['.'] ['-'] k i start b = b ++ (s.drop start).map dotToDash := by
  intro k
  induction k with
  | zero =>
    intro i start b h
    have hn : '.' ∉ s.drop start := List.count_eq_zero.mp h
    simp [replaceLoop, map_dotToDash_of_not_mem _ hn]
  | succ k ih =>
    intro i start b h
    have hm : '.' ∈ s.drop start := by
      apply List.count_pos_iff.mp
      omega
    obtain ⟨pre, post, e, hp⟩ := exists_first_dot _ hm
    have hpost : s.drop (start + pre.length + 1) = post := by
      have : s.drop (start + pre.length + 1) = (s.drop start).drop (pre.length + 1) := by
        rw [List.drop_drop, Nat.add_assoc]
      rw [this, e]
      simp
    have hk : (s.drop (start + pre.length + 1)).count '.' = k := by
      rw [hpost]
      rw [e] at h
      simp [List.count_append, List.count_eq_zero.mpr hp] at h
      exact h
    have step := ih (i + 1) (start + pre.length + 1) (b ++ pre ++ ['-']) hk
    rw [hpost] at step
    simp only [replaceLoop]
    rw [e, stringsIndex_first_dot pre post hp]
    simp only [List.append_assoc] at step
    simp [step, map_dotToDash_of_not_mem _ hp, dotToDash]

theorem stringsReplace_dot (s : String) :
    stringsReplace s "." "-" (-1) = String.mk (s.data.map dotToDash) := by
  have hne : ¬ ("." = "-") := by decide
  have hd : (".".data) = ['.'] := rfl
  have hh : ("-".data) = ['-'] := rfl
  simp only [stringsReplace, hne, hd, hh, stringsCount]
  by_cases h0 : s.data.count '.' = 0
  · have hn : '.' ∉ s.data := List.count_eq_zero.mp h0
    simp [h0, map_dotToDash_of_not_mem _ hn]
  · have := replaceLoop_dot s.data (s.data.count '.') 0 0 [] (by simp)
    simp [h0, this]

theorem lockName_eq_spec (s : String) : lockName s = specLockName s := by
  simp [lockName, specLockName, stringsReplace_dot]

/-! ## Running programs of `M` -/

theorem bind_run {α β : Type} (m : M α) (f : α → M β) (s : State) :
    (m >>= f) s = match m s with
      | (s1, .ret a) => f a s1
      | (s1, .halt code) => (s1, .halt code)
      | (s1, .block) => (s1, .block) := rfl

theorem pure_run {α : Type} (a : α) (s : State) : (pure a : M α) s = (s, .ret a) := rfl

theorem getenv_setenv_of_ne (env : Env) (key value k : String) (h : k ≠ key) :
    getenv (setenv env key value) k = getenv env k := by
  have hb : (k == key) = false := by simpa using h
  unfold setenv
  split
  · simp [getenv, List.lookup, hb]
  · rfl

theorem getenv_envAtRead (c : Consts) (env : Env) (h : c.ModeKeyDistinct) :
    getenv (envAtRead c env) c.EnvVarMode = getenv env c.EnvVarMode := by
  obtain ⟨h1, h2, h3⟩ := h
  simp [envAtRead, getenv_setenv_of_ne, h1, h2, h3]

theorem workloadRuns_append (t u : List Event) :
    workloadRuns (t ++ u) = workloadRuns t + workloadRuns u := by
  simp [workloadRuns, List.countP_append]

theorem workloadRuns_runEvents (c : Consts) (ctx : Ctx) : workloadRuns (runEvents c ctx) = 1 := by
  simp [workloadRuns, runEvents, List.countP_cons, Event.isWorkload]

theorem workloadRuns_callbackEvents (c : Consts) : ∀ (l : List Ctx),
    workloadRuns (callbackEvents c l) = l.length
  | [] => rfl
  | ctx :: rest => by
    simp [callbackEvents, workloadRuns_append, workloadRuns_runEvents,
      workloadRuns_callbackEvents c rest]
    omega

theorem performed_length_le (w : World) : ∀ (l : List Ctx) (n : Nat),
    (performed w n l).length ≤ l.length
  | [], _ => by simp [performed]
  | ctx :: rest, n => by
    have ih := performed_length_le w rest (n + 1)
    simp only [performed]
    split
    · simp only [List.length_cons]
      omega
    · simp
    · simp

/-- One invocation of the closure `run`: a provider is built, `gocsi.Run` is
called, and the invocation ends the way `gocsi.Run` does. -/
theorem run_apply (c : Consts) (w : World) (ctx : Ctx) (s : State) :
    run c w ctx s =
      ({ s with trace := s.trace ++ runEvents c ctx }, w.gocsiRun (workloadRuns s.trace) ctx) := by
  simp [run, bind_run, emit, gocsiRun, runEvents, workloadRuns_append, workloadRuns,
    Event.isWorkload]

/-- A series of invocations of the closure `run` by the coordinator. -/
theorem invokeAll_run (c : Consts) (w : World) : ∀ (l : List Ctx) (s : State),
    invokeAll (run c w) l s =
      ({ s with trace := s.trace ++ callbackEvents c (performed w (workloadRuns s.trace) l) },
        callbacksOutcome w (workloadRuns s.trace) l)
  | [], s => by simp [invokeAll, pure_run, performed, callbackEvents, callbacksOutcome]
  | ctx :: rest, s => by
    simp only [invokeAll, bind_run, run_apply, performed, callbacksOutcome]
    cases hr : w.gocsiRun (workloadRuns s.trace) ctx with
    | ret a =>
      simp [invokeAll_run c w rest, workloadRuns_append, workloadRuns_runEvents, callbackEvents]
    | halt code => simp [callbackEvents]
    | block => simp [callbackEvents]

/-- The call of the coordinator with the closure `run`, from a state without
earlier workload runs. -/
theorem leaderElection_run (c : Consts) (w : World) (cs : Option Clientset) (lock ns : String)
    (s : State) (h0 : workloadRuns s.trace = 0) :
    LeaderElection w cs lock ns (run c w) s =
      ({ s with trace := s.trace ++ [.leaderElection cs lock ns]
            ++ callbackEvents c (performed w 0 w.leaderCallbacks) },
        coordinatorOutcome w) := by
  have h1 : workloadRuns (s.trace ++ [Event.leaderElection cs lock ns]) = 0 := by
    rw [workloadRuns_append, h0]
    rfl
  simp only [LeaderElection, bind_run, emit, invokeAll_run, h1, coordinatorOutcome]
  cases callbacksOutcome w 0 w.leaderCallbacks <;> simp

/-! ## The paths of `main` -/

/-- A run whose `--array-config` flag is empty. -/
theorem exec_no_arrayConfig (c : Consts) (w : World) (f : Flags) (hp : w.flagParse = .ret f)
    (h : f.arrayConfigfile = "") :
    (exec c w).2 = .halt 1
      ∧ (exec c w).1.trace = [.stderr "array-config argument is mandatory"] := by
  simp [exec, main, bind_run, pure_run, modifySvc, osSetenv, flagParse, hp, h, emit, osExit,
    State.init]

/-- A run whose `--driver-config-params` flag is empty, the other required
flag being present. -/
theorem exec_no_driverConfigParams (c : Consts) (w : World) (f : Flags)
    (hp : w.flagParse = .ret f) (h : f.arrayConfigfile ≠ "")
    (h2 : f.driverConfigParamsfile = "") :
    (exec c w).2 = .halt 1
      ∧ (exec c w).1.trace = [.stderr "driver-config-params argument is mandatory"] := by
  simp [exec, main, bind_run, pure_run, modifySvc, osSetenv, flagParse, hp, h, h2, emit, osExit,
    State.init]

/-- A valid run in pre-init mode. -/
theorem exec_preInit (c : Consts) (w : World) (f : Flags) (hc : c.ModeKeyDistinct)
    (hv : ValidConfig w f) (hm : getenv w.env c.EnvVarMode = "mdm-info") :
    (exec c w).1.trace =
        [.getenv c.EnvVarMode, .stdout preInitBanner, .newPreInitService, .preInit]
          ++ (match w.preInit with
              | .ret (some e) => [.stderr ("failed to complete pre-init: " ++ e)]
              | _ => [])
      ∧ (exec c w).2 =
          (match w.preInit with
            | .ret none => .halt 0
            | .ret (some _) => .halt 1
            | .halt code => .halt code
            | .block => .block) := by
  obtain ⟨hp, h1, h2⟩ := hv
  have hm2 := getenv_envAtRead c w.env hc
  rw [hm] at hm2
  simp only [envAtRead] at hm2
  cases hpre : w.preInit with
  | ret r =>
    cases r <;>
    simp [exec, main, bind_run, pure_run, modifySvc, osSetenv, flagParse, hp, h1, h2, emit,
      osExit, State.init, osGetenv, hm2, call, hpre, preInitBanner]
  | halt code =>
    simp [exec, main, bind_run, pure_run, modifySvc, osSetenv, flagParse, hp, h1, h2, emit,
      osExit, State.init, osGetenv, hm2, call, hpre, preInitBanner]
  | block =>
    simp [exec, main, bind_run, pure_run, modifySvc, osSetenv, flagParse, hp, h1, h2, emit,
      osExit, State.init, osGetenv, hm2, call, hpre, preInitBanner]

/-- A valid run outside pre-init mode with leader election off is one
invocation of the closure `run` with the background context. -/
theorem exec_direct (c : Consts) (w : World) (f : Flags) (hc : c.ModeKeyDistinct)
    (hv : ValidConfig w f) (hm : getenv w.env c.EnvVarMode ≠ "mdm-info")
    (hle : f.enableLeaderElection = false) :
    exec c w = run c w .background (stateAfterRead c w f) := by
  obtain ⟨hp, h1, h2⟩ := hv
  have hm2 := getenv_envAtRead c w.env hc
  rw [← hm2] at hm
  simp only [envAtRead] at hm
  simp [exec, main, bind_run, pure_run, modifySvc, osSetenv, flagParse, hp, h1, h2,
    State.init, osGetenv, hm, hle, stateAfterRead, envAtRead]

/-- A valid run outside pre-init mode with leader election on in which the
cluster client factory returns an error. -/
theorem exec_clientError (c : Consts) (w : World) (f : Flags) (hc : c.ModeKeyDistinct)
    (hv : ValidConfig w f) (hm : getenv w.env c.EnvVarMode ≠ "mdm-info")
    (hle : f.enableLeaderElection = true) (cs : Option Clientset) (e : String)
    (hcs : w.createKubeClientSet = .ret (cs, some e)) :
    (exec c w).1.trace =
        [.getenv c.EnvVarMode, .createKubeClientSet,
          .stderr ("failed to create clientset for leader election: " ++ e)]
      ∧ (exec c w).2 = .halt 1 := by
  obtain ⟨hp, h1, h2⟩ := hv
  have hm2 := getenv_envAtRead c w.env hc
  rw [← hm2] at hm
  simp only [envAtRead] at hm
  simp [exec, main, bind_run, pure_run, modifySvc, osSetenv, flagParse, hp, h1, h2,
    State.init, osGetenv, hm, hle, createKubeClientSet, hcs, emit, osExit]

/-- A valid run outside pre-init mode with leader election on in which the
cluster client factory returns no error is one call of the coordinator. -/
theorem exec_leader (c : Consts) (w : World) (f : Flags) (hc : c.ModeKeyDistinct)
    (hv : ValidConfig w f) (hm : getenv w.env c.EnvVarMode ≠ "mdm-info")
    (hle : f.enableLeaderElection = true) (cs : Option Clientset)
    (hcs : w.createKubeClientSet = .ret (cs, none)) :
    exec c w =
      LeaderElection w cs (lockName c.Name) f.leaderElectionNamespace (run c w)
        (stateAtCoordinatorCall c w f cs) := by
  obtain ⟨hp, h1, h2⟩ := hv
  have hm2 := getenv_envAtRead c w.env hc
  rw [← hm2] at hm
  simp only [envAtRead] at hm
  simp [exec, main, bind_run, pure_run, modifySvc, osSetenv, flagParse, hp, h1, h2,
    State.init, osGetenv, hm, hle, createKubeClientSet, hcs, readClientset,
    stateAtCoordinatorCall, envAtRead, lockName]

/-- A valid run outside pre-init mode with leader election on in which the
cluster client factory does not return. -/
theorem exec_clientStuck (c : Consts) (w : World) (f : Flags) (hc : c.ModeKeyDistinct)
    (hv : ValidConfig w f) (hm : getenv w.env c.EnvVarMode ≠ "mdm-info")
    (hle : f.enableLeaderElection = true)
    (hcs : ∀ r, w.createKubeClientSet ≠ .ret r) :
    (exec c w).1.trace = [.getenv c.EnvVarMode, .createKubeClientSet] := by
  obtain ⟨hp, h1, h2⟩ := hv
  have hm2 := getenv_envAtRead c w.env hc
  rw [← hm2] at hm
  simp only [envAtRead] at hm
  cases hk : w.createKubeClientSet with
  | ret r => exact absurd hk (hcs r)
  | halt code =>
    simp [exec, main, bind_run, pure_run, modifySvc, osSetenv, flagParse, hp, h1, h2,
      State.init, osGetenv, hm, hle, createKubeClientSet, hk]
  | block =>
    simp [exec, main, bind_run, pure_run, modifySvc, osSetenv, flagParse, hp, h1, h2,
      State.init, osGetenv, hm, hle, createKubeClientSet, hk]

theorem countP_isGetenv_callbackEvents (c : Consts) : ∀ (l : List Ctx),
    (callbackEvents c l).countP Event.isGetenv = 0
  | [] => rfl
  | ctx :: rest => by
    simp [callbackEvents, runEvents, List.countP_cons, Event.isGetenv,
      countP_isGetenv_callbackEvents c rest]

theorem countP_isCoordinator_callbackEvents (c : Consts) : ∀ (l : List Ctx),
    (callbackEvents c l).countP Event.isCoordinator = 0
  | [] => rfl
  | ctx :: rest => by
    simp [callbackEvents, runEvents, List.countP_cons, Event.isCoordinator,
      countP_isCoordinator_callbackEvents c rest]

theorem countP_isStderr_callbackEvents (c : Consts) : ∀ (l : List Ctx),
    (callbackEvents c l).countP Event.isStderr = 0
  | [] => rfl
  | ctx :: rest => by
    simp [callbackEvents, runEvents, List.countP_cons, Event.isStderr,
      countP_isStderr_callbackEvents c rest]

/-- The trace and the outcome of a valid leader-elected run whose cluster
client was built. -/
theorem exec_leader_trace (c : Consts) (w : World) (f : Flags) (hc : c.ModeKeyDistinct)
    (hv : ValidConfig w f) (hm : getenv w.env c.EnvVarMode ≠ "mdm-info")
    (hle : f.enableLeaderElection = true) (cs : Option Clientset)
    (hcs : w.createKubeClientSet = .ret (cs, none)) :
    (exec c w).1.trace =
        [.getenv c.EnvVarMode, .createKubeClientSet,
          .leaderElection cs (specLockName c.Name) f.leaderElectionNamespace]
          ++ callbackEvents c (performed w 0 w.leaderCallbacks)
      ∧ (exec c w).2 = coordinatorOutcome w := by
  rw [exec_leader c w f hc hv hm hle cs hcs,
    leaderElection_run c w cs _ _ (stateAtCoordinatorCall c w f cs) rfl]
  simp [stateAtCoordinatorCall, lockName_eq_spec]

/-- A valid run reads the mode selector first and only once, and takes the
path the spec's mode selection names. -/
theorem exec_valid_mode (c : Consts) (w : World) (f : Flags) (hc : c.ModeKeyDistinct)
    (hv : ValidConfig w f) :
    (exec c w).1.trace.head? = some (.getenv c.EnvVarMode)
      ∧ (exec c w).1.trace.countP Event.isGetenv = 1
      ∧ observedMode (exec c w).1.trace
          = some (specMode (getenv w.env c.EnvVarMode) f.enableLeaderElection) := by
  by_cases hm : getenv w.env c.EnvVarMode = "mdm-info"
  · obtain ⟨ht, -⟩ := exec_preInit c w f hc hv hm
    rw [ht]
    cases w.preInit with
    | ret r =>
      cases r <;>
      simp [List.countP_cons, Event.isGetenv, observedMode, List.findSome?, Event.modeOf,
        specMode, hm]
    | halt code =>
      simp [List.countP_cons, Event.isGetenv, observedMode, List.findSome?, Event.modeOf,
        specMode, hm]
    | block =>
      simp [List.countP_cons, Event.isGetenv, observedMode, List.findSome?, Event.modeOf,
        specMode, hm]
  · cases hle : f.enableLeaderElection with
    | false =>
      rw [exec_direct c w f hc hv hm hle, run_apply]
      simp [stateAfterRead, runEvents, List.countP_cons, Event.isGetenv, observedMode,
        List.findSome?, Event.modeOf, specMode, hm]
    | true =>
      cases hk : w.createKubeClientSet with
      | ret r =>
        obtain ⟨cs, err⟩ := r
        cases err with
        | none =>
          obtain ⟨ht, -⟩ := exec_leader_trace c w f hc hv hm hle cs hk
          rw [ht]
          simp [List.countP_cons, List.countP_append, countP_isGetenv_callbackEvents,
            Event.isGetenv, observedMode, List.findSome?, Event.modeOf, specMode, hm]
        | some e =>
          obtain ⟨ht, -⟩ := exec_clientError c w f hc hv hm hle cs e hk
          rw [ht]
          simp [List.countP_cons, Event.isGetenv, observedMode, List.findSome?, Event.modeOf,
            specMode, hm]
      | halt code =>
        rw [exec_clientStuck c w f hc hv hm hle (by simp [hk])]
        simp [List.countP_cons, Event.isGetenv, observedMode, List.findSome?, Event.modeOf,
          specMode, hm]
      | block =>
        rw [exec_clientStuck c w f hc hv hm hle (by simp [hk])]
        simp [List.countP_cons, Event.isGetenv, observedMode, List.findSome?, Event.modeOf,
          specMode, hm]

/-! ## The claims -/

/-- C1: when the `--array-config` flag is empty, or it is set and the
`--driver-config-params` flag is empty, `main` writes to the error stream a
diagnostic naming the missing flag, exits with status 1, and does nothing
else: it does not read the mode-selector variable, does not run pre-init, does
not invoke the workload, does not create the cluster client and does not call
the coordinator, whatever the other flags, the environment and the
collaborators are. -/
theorem missing_required_flag_is_fatal (c : Consts) (w : World) (f : Flags)
    (hparse : w.flagParse = .ret f)
    (hmissing : f.arrayConfigfile = ""
      ∨ (f.arrayConfigfile ≠ "" ∧ f.driverConfigParamsfile = "")) :
    (exec c w).1.trace =
        [.stderr (if f.arrayConfigfile = "" then "array-config argument is mandatory"
          else "driver-config-params argument is mandatory")]
      ∧ (exec c w).2 = .halt 1
      ∧ exitStatus (exec c w).2 = some 1
      ∧ (exec c w).1.trace.all (fun e => !e.isGetenv && !e.isPreInit && !e.isWorkload
          && !e.isClientFactory && !e.isCoordinator) = true := by
  rcases hmissing with h | ⟨h, h2⟩
  · obtain ⟨ho, ht⟩ := exec_no_arrayConfig c w f hparse h
    simp [ho, ht, h, exitStatus, Event.isGetenv, Event.isPreInit, Event.isWorkload,
      Event.isClientFactory, Event.isCoordinator]
  · obtain ⟨ho, ht⟩ := exec_no_driverConfigParams c w f hparse h h2
    simp [ho, ht, h, exitStatus, Event.isGetenv, Event.isPreInit, Event.isWorkload,
      Event.isClientFactory, Event.isCoordinator]

/-- Witness of C1: a startup without `--array-config`, with leader election
on and the mode selector set to the sentinel. -/
theorem missing_required_flag_is_fatal_witness :
    noArrayConfigWorld.flagParse = .ret noArrayConfigFlags
      ∧ noArrayConfigFlags.arrayConfigfile = ""
      ∧ (exec releasedConsts noArrayConfigWorld).2 = .halt 1
      ∧ exitStatus (exec releasedConsts noArrayConfigWorld).2 = some 1 :=
  have h := missing_required_flag_is_fatal releasedConsts noArrayConfigWorld noArrayConfigFlags
    rfl (Or.inl rfl)
  ⟨rfl, rfl, h.2.1, h.2.2.1⟩

/-- C2: in a valid run whose mode-selector variable equals the sentinel
`mdm-info`, the workload entrypoint is never invoked and neither the cluster
client factory nor the coordinator is called, whether the leader-election
flag is on or off and however the pre-init routine ends. -/
theorem preInit_mode_never_starts_workload (c : Consts) (w : World) (f : Flags)
    (hc : c.ModeKeyDistinct) (hv : ValidConfig w f)
    (hm : getenv w.env c.EnvVarMode = "mdm-info") :
    workloadRuns (exec c w).1.trace = 0
      ∧ (exec c w).1.trace.all (fun e => !e.isWorkload && !e.isClientFactory
          && !e.isCoordinator) = true := by
  obtain ⟨ht, -⟩ := exec_preInit c w f hc hv hm
  rw [ht]
  cases w.preInit with
  | ret r =>
    cases r <;>
    simp [workloadRuns, List.countP_cons, Event.isWorkload, Event.isClientFactory,
      Event.isCoordinator]
  | halt code =>
    simp [workloadRuns, List.countP_cons, Event.isWorkload, Event.isClientFactory,
      Event.isCoordinator]
  | block =>
    simp [workloadRuns, List.countP_cons, Event.isWorkload, Event.isClientFactory,
      Event.isCoordinator]

/-- Witness of C2: pre-init mode with leader election on and a pre-init
routine that never returns. -/
theorem preInit_mode_never_starts_workload_witness :
    releasedConsts.ModeKeyDistinct
      ∧ ValidConfig preInitStuckWorld leaderFlags
      ∧ getenv preInitStuckWorld.env releasedConsts.EnvVarMode = "mdm-info"
      ∧ workloadRuns (exec releasedConsts preInitStuckWorld).1.trace = 0 :=
  ⟨by decide, by decide, by decide,
    (preInit_mode_never_starts_workload releasedConsts preInitStuckWorld leaderFlags
      (by decide) (by decide) (by decide)).1⟩

/-- C3: in a valid run outside pre-init mode with leader election off, `main`
is one invocation of the closure `run` with the background context: the
workload entrypoint is invoked exactly once, `main` ends the way that
invocation ends, and neither the cluster client factory nor the coordinator
is called. -/
theorem direct_run_invokes_workload_once (c : Consts) (w : World) (f : Flags)
    (hc : c.ModeKeyDistinct) (hv : ValidConfig w f)
    (hm : getenv w.env c.EnvVarMode ≠ "mdm-info")
    (hle : f.enableLeaderElection = false) :
    exec c w = run c w .background (stateAfterRead c w f)
      ∧ (exec c w).1.trace =
          [.getenv c.EnvVarMode, .providerNew,
            .gocsiRun .background c.Name description usage]
      ∧ workloadRuns (exec c w).1.trace = 1
      ∧ (exec c w).2 = w.gocsiRun 0 .background
      ∧ (exec c w).1.trace.all (fun e => !e.isClientFactory && !e.isCoordinator) = true := by
  have he := exec_direct c w f hc hv hm hle
  refine ⟨he, ?_⟩
  rw [he, run_apply]
  simp [stateAfterRead, runEvents, workloadRuns, List.countP_cons, Event.isWorkload,
    Event.isClientFactory, Event.isCoordinator]

/-- Witness of C3: the sample startup with leader election off. -/
theorem direct_run_invokes_workload_once_witness :
    releasedConsts.ModeKeyDistinct
      ∧ ValidConfig sampleWorld sampleFlags
      ∧ getenv sampleWorld.env releasedConsts.EnvVarMode ≠ "mdm-info"
      ∧ sampleFlags.enableLeaderElection = false
      ∧ workloadRuns (exec releasedConsts sampleWorld).1.trace = 1 :=
  ⟨by decide, by decide, by decide, rfl,
    (direct_run_invokes_workload_once releasedConsts sampleWorld sampleFlags
      (by decide) (by decide) (by decide) rfl).2.2.1⟩

/-- C4: in a valid run outside pre-init mode with leader election on, if the
cluster client factory returns an error then `main` writes a diagnostic to
the error stream and exits with status 1; the coordinator is never called and
the workload entrypoint never invoked. -/
theorem client_failure_is_fatal (c : Consts) (w : World) (f : Flags)
    (hc : c.ModeKeyDistinct) (hv : ValidConfig w f)
    (hm : getenv w.env c.EnvVarMode ≠ "mdm-info")
    (hle : f.enableLeaderElection = true) (cs : Option Clientset) (e : String)
    (hcs : w.createKubeClientSet = .ret (cs, some e)) :
    (exec c w).1.trace =
        [.getenv c.EnvVarMode, .createKubeClientSet,
          .stderr ("failed to create clientset for leader election: " ++ e)]
      ∧ (exec c w).2 = .halt 1
      ∧ exitStatus (exec c w).2 = some 1
      ∧ (exec c w).1.trace.all (fun e => !e.isCoordinator && !e.isWorkload) = true := by
  obtain ⟨ht, ho⟩ := exec_clientError c w f hc hv hm hle cs e hcs
  simp [ht, ho, exitStatus, Event.isCoordinator, Event.isWorkload]

/-- Witness of C4: the cluster client cannot be built. -/
theorem client_failure_is_fatal_witness :
    releasedConsts.ModeKeyDistinct
      ∧ ValidConfig clientFailureWorld leaderFlags
      ∧ getenv clientFailureWorld.env releasedConsts.EnvVarMode ≠ "mdm-info"
      ∧ leaderFlags.enableLeaderElection = true
      ∧ clientFailureWorld.createKubeClientSet = .ret (none, some "no kubeconfig")
      ∧ (exec releasedConsts clientFailureWorld).2 = .halt 1 :=
  ⟨by decide, by decide, by decide, rfl, rfl,
    (client_failure_is_fatal releasedConsts clientFailureWorld leaderFlags
      (by decide) (by decide) (by decide) rfl none "no kubeconfig" rfl).2.1⟩

theorem utf8Size_dotToDash (ch : Char) : (dotToDash ch).utf8Size = ch.utf8Size := by
  unfold dotToDash
  split
  · next h => rw [h]; rfl
  · rfl

theorem utf8ByteSize_go_append : ∀ (a b : List Char),
    String.utf8ByteSize.go (a ++ b) = String.utf8ByteSize.go a + String.utf8ByteSize.go b
  | [], b => by
    show String.utf8ByteSize.go b = 0 + String.utf8ByteSize.go b
    omega
  | x :: a, b => by
    show String.utf8ByteSize.go (a ++ b) + x.utf8Size
      = String.utf8ByteSize.go a + x.utf8Size + String.utf8ByteSize.go b
    rw [utf8ByteSize_go_append a b]
    omega

theorem utf8ByteSize_go_map_dotToDash : ∀ (l : List Char),
    String.utf8ByteSize.go (l.map dotToDash) = String.utf8ByteSize.go l
  | [] => rfl
  | x :: l => by
    show String.utf8ByteSize.go (l.map dotToDash) + (dotToDash x).utf8Size
      = String.utf8ByteSize.go l + x.utf8Size
    rw [utf8ByteSize_go_map_dotToDash l, utf8Size_dotToDash]

theorem specLockName_data (s : String) :
    (specLockName s).data = "driver-".data ++ s.data.map dotToDash := rfl

theorem dotToDash_ne_dot (ch : Char) : dotToDash ch ≠ '.' := by
  unfold dotToDash
  split
  · decide
  · assumption

/-- C5: the lock identity is a function of the service name alone: it is
`driver-` followed by the name with every `.` replaced by `-`.  So it holds no
`.` after the seven characters of `driver-`, it is seven longer than the name
(in characters and in bytes), the character at offset `i + 7` is the image of
the name's character at offset `i` (a `.` becomes `-`, any other character is
kept), and the name `csi-vxflexos.dellemc.com` gives
`driver-csi-vxflexos-dellemc-com`. -/
theorem lockName_is_driver_dash_name (s : String) :
    lockName s = specLockName s
      ∧ (lockName s).data = "driver-".data ++ s.data.map dotToDash
      ∧ ((lockName s).data.drop 7).contains '.' = false
      ∧ (lockName s).length = s.length + 7
      ∧ (lockName s).utf8ByteSize = s.utf8ByteSize + 7
      ∧ (∀ i : Nat, (lockName s).data[i + 7]? = (s.data[i]?).map dotToDash)
      ∧ lockName "csi-vxflexos.dellemc.com" = "driver-csi-vxflexos-dellemc-com" := by
  have hd := specLockName_data s
  rw [lockName_eq_spec s]
  refine ⟨rfl, hd, ?_, ?_, ?_, ?_, by decide⟩
  · rw [hd]
    have h7 : ("driver-".data ++ s.data.map dotToDash).drop 7 = s.data.map dotToDash := rfl
    rw [h7]
    cases hcon : (s.data.map dotToDash).contains '.' with
    | false => rfl
    | true =>
      have hmem : '.' ∈ s.data.map dotToDash := by simpa using hcon
      obtain ⟨ch, -, hch⟩ := List.mem_map.mp hmem
      exact absurd hch (dotToDash_ne_dot ch)
  · rw [String.length, hd, List.length_append, List.length_map]
    show 7 + s.data.length = s.data.length + 7
    omega
  · have hb : (specLockName s).utf8ByteSize
        = String.utf8ByteSize.go ("driver-".data ++ s.data.map dotToDash) := rfl
    have hs : s.utf8ByteSize = String.utf8ByteSize.go s.data := rfl
    have h7 : String.utf8ByteSize.go "driver-".data = 7 := by decide
    rw [hb, hs, utf8ByteSize_go_append, utf8ByteSize_go_map_dotToDash, h7]
    omega
  · intro i
    rw [hd]
    have h7 : "driver-".data.length = 7 := rfl
    rw [List.getElem?_append_right (by omega)]
    simp [h7]

/-- C6: in pre-init mode (a valid run whose mode selector equals the
sentinel) the result of `PreInit` decides the outcome.  With no error, `main`
prints the status message on standard output, writes nothing to the error
stream and exits with status 0; with the error `e`, `main` prints the status
message, writes a diagnostic ending in `e` to the error stream and exits with
status 1. -/
theorem preInit_result_decides_exit (c : Consts) (w : World) (f : Flags)
    (hc : c.ModeKeyDistinct) (hv : ValidConfig w f)
    (hm : getenv w.env c.EnvVarMode = "mdm-info")
    (r : Option String) (hpre : w.preInit = .ret r) :
    match r with
    | none =>
      (exec c w).1.trace =
          [.getenv c.EnvVarMode, .stdout preInitBanner, .newPreInitService, .preInit]
        ∧ (exec c w).1.trace.countP Event.isStderr = 0
        ∧ (exec c w).2 = .halt 0
        ∧ exitStatus (exec c w).2 = some 0
    | some e =>
      (exec c w).1.trace =
          [.getenv c.EnvVarMode, .stdout preInitBanner, .newPreInitService, .preInit,
            .stderr ("failed to complete pre-init: " ++ e)]
        ∧ (exec c w).2 = .halt 1
        ∧ exitStatus (exec c w).2 = some 1 := by
  obtain ⟨ht, ho⟩ := exec_preInit c w f hc hv hm
  rw [hpre] at ht ho
  cases r with
  | none => simp [ht, ho, exitStatus, List.countP_cons, Event.isStderr]
  | some e => simp [ht, ho, exitStatus]

/-- Witness of C6: pre-init succeeds in an init container. -/
theorem preInit_result_decides_exit_witness :
    releasedConsts.ModeKeyDistinct
      ∧ ValidConfig preInitWorld sampleFlags
      ∧ getenv preInitWorld.env releasedConsts.EnvVarMode = "mdm-info"
      ∧ preInitWorld.preInit = .ret none
      ∧ (exec releasedConsts preInitWorld).2 = .halt 0 :=
  ⟨by decide, by decide, by decide, rfl,
    (preInit_result_decides_exit releasedConsts preInitWorld sampleFlags
      (by decide) (by decide) (by decide) none rfl).2.2.1⟩

/-- C7, as stated, fails: in a valid leader-elected run whose cluster client
was built and whose coordinator returns, the process ends with status 0, not
with status 1. -/
theorem coordinator_return_exit_status_counterexample :
    releasedConsts.ModeKeyDistinct
      ∧ ValidConfig coordinatorReturnsWorld leaderFlags
      ∧ getenv coordinatorReturnsWorld.env releasedConsts.EnvVarMode ≠ "mdm-info"
      ∧ leaderFlags.enableLeaderElection = true
      ∧ coordinatorReturnsWorld.createKubeClientSet = .ret (some 1, none)
      ∧ coordinatorOutcome coordinatorReturnsWorld = .ret ()
      ∧ exitStatus (exec releasedConsts coordinatorReturnsWorld).2 = some 0
      ∧ exitStatus (exec releasedConsts coordinatorReturnsWorld).2 ≠ some 1 := by
  decide

/-- C7, amended: in a valid leader-elected run whose cluster client was
built, `main` ends the way the call of the coordinator ends.  If that call
returns, `main` does nothing more: it writes no diagnostic and returns, so
the process ends with status 0. -/
theorem coordinator_return_ends_main (c : Consts) (w : World) (f : Flags)
    (hc : c.ModeKeyDistinct) (hv : ValidConfig w f)
    (hm : getenv w.env c.EnvVarMode ≠ "mdm-info")
    (hle : f.enableLeaderElection = true) (cs : Option Clientset)
    (hcs : w.createKubeClientSet = .ret (cs, none))
    (hret : coordinatorOutcome w = .ret ()) :
    (exec c w).2 = .ret ()
      ∧ exitStatus (exec c w).2 = some 0
      ∧ (exec c w).1.trace.countP Event.isStderr = 0 := by
  obtain ⟨ht, ho⟩ := exec_leader_trace c w f hc hv hm hle cs hcs
  rw [hret] at ho
  simp [ht, ho, exitStatus, List.countP_cons, List.countP_append,
    countP_isStderr_callbackEvents, Event.isStderr]

/-- Witness of C7, amended: the coordinator returns after one leadership
term. -/
theorem coordinator_return_ends_main_witness :
    releasedConsts.ModeKeyDistinct
      ∧ ValidConfig oneTermWorld leaderFlags
      ∧ getenv oneTermWorld.env releasedConsts.EnvVarMode ≠ "mdm-info"
      ∧ leaderFlags.enableLeaderElection = true
      ∧ oneTermWorld.createKubeClientSet = .ret (some 1, none)
      ∧ coordinatorOutcome oneTermWorld = .ret ()
      ∧ exitStatus (exec releasedConsts oneTermWorld).2 = some 0 :=
  ⟨by decide, by decide, by decide, rfl, rfl, by decide,
    (coordinator_return_ends_main releasedConsts oneTermWorld leaderFlags
      (by decide) (by decide) (by decide) rfl (some 1) rfl (by decide)).2.1⟩

/-- C8: in a valid leader-elected run whose cluster client was built, `main`
is one call of the coordinator, made after the client is created, with the
lock identity `driver-` plus the service name with dots replaced by dashes,
with the value of `--leader-election-namespace` unchanged, and with the
closure `run`, the one direct mode invokes.  `main` does not invoke the
workload itself: there is no workload run up to the call of the coordinator,
and the workload runs once for each callback invocation the coordinator
makes. -/
theorem leader_run_delegates_to_coordinator (c : Consts) (w : World) (f : Flags)
    (hc : c.ModeKeyDistinct) (hv : ValidConfig w f)
    (hm : getenv w.env c.EnvVarMode ≠ "mdm-info")
    (hle : f.enableLeaderElection = true) (cs : Option Clientset)
    (hcs : w.createKubeClientSet = .ret (cs, none)) :
    exec c w =
        LeaderElection w cs (lockName c.Name) f.leaderElectionNamespace (run c w)
          (stateAtCoordinatorCall c w f cs)
      ∧ (exec c w).1.trace =
          [.getenv c.EnvVarMode, .createKubeClientSet,
            .leaderElection cs (specLockName c.Name) f.leaderElectionNamespace]
            ++ callbackEvents c (performed w 0 w.leaderCallbacks)
      ∧ (exec c w).1.trace.countP Event.isCoordinator = 1
      ∧ workloadRuns ((exec c w).1.trace.take 3) = 0
      ∧ workloadRuns (exec c w).1.trace = (performed w 0 w.leaderCallbacks).length
      ∧ (performed w 0 w.leaderCallbacks).length ≤ w.leaderCallbacks.length
      ∧ (exec c w).2 = coordinatorOutcome w := by
  obtain ⟨ht, ho⟩ := exec_leader_trace c w f hc hv hm hle cs hcs
  refine ⟨exec_leader c w f hc hv hm hle cs hcs, ht, ?_, ?_, ?_,
    performed_length_le w _ 0, ho⟩
  · simp [ht, List.countP_cons, List.countP_append, countP_isCoordinator_callbackEvents,
      Event.isCoordinator]
  · simp [ht, workloadRuns, List.countP_cons, Event.isWorkload]
  · rw [ht, workloadRuns_append, workloadRuns_callbackEvents]
    simp [workloadRuns, List.countP_cons, Event.isWorkload]

/-- Witness of C8: the coordinator grants two leadership terms and the
workload blocks in the second. -/
theorem leader_run_delegates_to_coordinator_witness :
    releasedConsts.ModeKeyDistinct
      ∧ ValidConfig leaderWorld leaderFlags
      ∧ getenv leaderWorld.env releasedConsts.EnvVarMode ≠ "mdm-info"
      ∧ leaderFlags.enableLeaderElection = true
      ∧ leaderWorld.createKubeClientSet = .ret (some 1, none)
      ∧ (exec releasedConsts leaderWorld).1.trace =
          [.getenv "X_CSI_MODE", .createKubeClientSet,
            .leaderElection (some 1) (specLockName "csi-vxflexos.dellemc.com") "vxflexos"]
            ++ callbackEvents releasedConsts [.leaderTerm 0, .leaderTerm 1] :=
  ⟨by decide, by decide, by decide, rfl, rfl,
    (leader_run_delegates_to_coordinator releasedConsts leaderWorld leaderFlags
      (by decide) (by decide) (by decide) rfl (some 1) rfl).2.1⟩

/-- C9: mode selection is a function of the mode-selector value and the
leader-election flag alone.  Two valid runs that agree on both take the same
path, whatever their other environment variables, flags and collaborators
are, and that path is the one the spec names: pre-init exactly when the value
is `mdm-info`, otherwise direct when the flag is off and leader-elected when
it is on.  In each run the read of the variable is the first event and the
only read, so it comes before any workload or coordinator call. -/
theorem mode_selection_is_deterministic (c : Consts) (w1 w2 : World) (f1 f2 : Flags)
    (hc : c.ModeKeyDistinct) (hv1 : ValidConfig w1 f1) (hv2 : ValidConfig w2 f2)
    (hmode : getenv w1.env c.EnvVarMode = getenv w2.env c.EnvVarMode)
    (hflag : f1.enableLeaderElection = f2.enableLeaderElection) :
    observedMode (exec c w1).1.trace = observedMode (exec c w2).1.trace
      ∧ observedMode (exec c w1).1.trace
          = some (specMode (getenv w1.env c.EnvVarMode) f1.enableLeaderElection)
      ∧ (exec c w1).1.trace.head? = some (.getenv c.EnvVarMode)
      ∧ (exec c w2).1.trace.head? = some (.getenv c.EnvVarMode)
      ∧ (exec c w1).1.trace.countP Event.isGetenv = 1
      ∧ (exec c w2).1.trace.countP Event.isGetenv = 1 := by
  obtain ⟨a1, b1, m1⟩ := exec_valid_mode c w1 f1 hc hv1
  obtain ⟨a2, b2, m2⟩ := exec_valid_mode c w2 f2 hc hv2
  refine ⟨?_, m1, a1, a2, b1, b2⟩
  rw [m1, m2, hmode, hflag]

/-- Witness of C9: two direct-mode startups that differ in every other
setting. -/
theorem mode_selection_is_deterministic_witness :
    releasedConsts.ModeKeyDistinct
      ∧ ValidConfig sampleWorld sampleFlags ∧ ValidConfig otherWorld otherFlags
      ∧ getenv sampleWorld.env releasedConsts.EnvVarMode
          = getenv otherWorld.env releasedConsts.EnvVarMode
      ∧ sampleFlags.enableLeaderElection = otherFlags.enableLeaderElection
      ∧ observedMode (exec releasedConsts sampleWorld).1.trace
          = observedMode (exec releasedConsts otherWorld).1.trace :=
  ⟨by decide, by decide, by decide, by decide, rfl,
    (mode_selection_is_deterministic releasedConsts sampleWorld otherWorld sampleFlags
      otherFlags (by decide) (by decide) (by decide) (by decide) rfl).1⟩

end CsiPowerflex
